import Mathlib

/-!
Verification development for the plantmonitor sketch family: a soil-moisture
monitor that maps a raw ADC reading to a percentage, classifies it into a
mood band, and renders a status scene onto a 122x250 bi-level e-paper canvas.

The sketches come in several configuration variants.  Definitions suffixed
with a plain name or no suffix follow plantmonitor.ino; definitions suffixed
with 5 follow the five-threshold variant (the second sketch of part_001),
which uses a landscape 250x122 canvas, a six-branch status classifier and a
guarded progress-bar fill.  C integer arithmetic on int and long is modelled
with Int; C division truncates toward zero, which is Int.tdiv.
-/

namespace PlantMonitor

/-! Calibration, threshold and geometry constants from the sketches. -/

/-- DRY_RAW calibration constant (sensor in air), plantmonitor.ino line 13. -/
def DRY_RAW : Int := 3200

/-- WET_RAW calibration constant (sensor in water), plantmonitor.ino line 14. -/
def WET_RAW : Int := 1400

/-- THRESH_DRY mood threshold, plantmonitor.ino line 17. -/
def THRESH_DRY : Int := 35

/-- THRESH_WET mood threshold, plantmonitor.ino line 18. -/
def THRESH_WET : Int := 70

/-- clampi from the sketches: clamp v into the closed range lo..hi. -/
def clampi (v lo hi : Int) : Int :=
  if v < lo then lo else if v > hi then hi else v

/-- moisturePercent of plantmonitor.ino, with the calibration constants as
parameters: pct = (long)(dryRaw - raw) * 100 / (long)(dryRaw - wetRaw),
then clamped into 0..100.  The C long division truncates toward zero, so it
is Int.tdiv.  There is no denominator guard in this variant. -/
def moisturePercentP (dryRaw wetRaw raw : Int) : Int :=
  clampi (Int.tdiv ((dryRaw - raw) * 100) (dryRaw - wetRaw)) 0 100

/-- moisturePercent at the compiled-in calibration constants. -/
def moisturePercent (raw : Int) : Int :=
  moisturePercentP DRY_RAW WET_RAW raw

/-- moisturePercentFromRaw of the second sketch in part_000, with the
calibration constants as parameters: it first computes denom = dryRaw -
wetRaw and returns 0 when denom == 0, otherwise the same truncated, clamped
quotient as moisturePercent.  The guard runs on every call. -/
def moisturePercentFromRawP (dryRaw wetRaw raw : Int) : Int :=
  let denom := dryRaw - wetRaw
  if denom = 0 then 0
  else clampi (Int.tdiv ((dryRaw - raw) * 100) denom) 0 100

/-- Companion definition following the spec formula for the refinement
comparison of claim C1: percent with the quotient rounded to nearest
(half rounds up; the counterexample below avoids ties), written as a floor
division of 2*num + den by 2*den. -/
def moisturePercentSpecRounded (raw : Int) : Int :=
  clampi
    (Int.fdiv (2 * ((DRY_RAW - raw) * 100) + (DRY_RAW - WET_RAW))
      (2 * (DRY_RAW - WET_RAW)))
    0 100

/-- Clamping always lands in the closed range when lo is at most hi. -/
theorem clampi_mem (v lo hi : Int) (h : lo ≤ hi) :
    lo ≤ clampi v lo hi ∧ clampi v lo hi ≤ hi := by
  unfold clampi
  split_ifs <;> omega

/-- Claim C1 (counterexample): the quotient is truncated, not rounded to
nearest.  At raw = 3190 the exact quotient is 1000/1800, about 0.56: the
code truncates it to 0 while the spec formula rounds it to 1. -/
theorem moisturePercent_not_rounded_cex :
    moisturePercent 3190 = 0 ∧ moisturePercentSpecRounded 3190 = 1 := by
  decide

/-- Claim C1 (amended): for every raw reading the percent mapping returns
clamp of the quotient (dryRaw - raw) * 100 / (dryRaw - wetRaw) truncated
toward zero -- equivalently, after clamping, the floor of that quotient --
and for raw in the 12-bit range the numerator magnitude stays below 2^31,
so the long arithmetic cannot overflow. -/
theorem moisturePercent_truncating_formula (raw : Int)
    (h0 : 0 ≤ raw) (h1 : raw ≤ 4095) :
    moisturePercent raw =
      clampi (Int.fdiv ((DRY_RAW - raw) * 100) (DRY_RAW - WET_RAW)) 0 100 ∧
    ((DRY_RAW - raw) * 100).natAbs < 2 ^ 31 := by
  constructor
  · unfold moisturePercent moisturePercentP DRY_RAW WET_RAW
    set a : Int := (3200 - raw) * 100 with ha
    have hden : (3200 : Int) - 1400 = 1800 := by norm_num
    rw [hden, Int.fdiv_eq_ediv _ (by norm_num)]
    rcases le_or_lt 0 a with hpos | hneg
    · rw [Int.tdiv_eq_ediv hpos (by norm_num)]
    · have hneg2 : Int.tdiv a 1800 = -(Int.tdiv (-a) 1800) := by
        rw [← Int.neg_tdiv, neg_neg]
      rw [hneg2, Int.tdiv_eq_ediv (by omega) (by norm_num)]
      unfold clampi
      split_ifs <;> omega
  · have h2 : (2 : Int) ^ 31 = 2147483648 := by norm_num
    unfold DRY_RAW
    omega

/-- Claim C1 witness: the amended statement at raw = 3190. -/
theorem moisturePercent_truncating_formula_witness :
    moisturePercent 3190 =
      clampi (Int.fdiv ((DRY_RAW - 3190) * 100) (DRY_RAW - WET_RAW)) 0 100 ∧
    ((DRY_RAW - 3190) * 100).natAbs < 2 ^ 31 :=
  moisturePercent_truncating_formula 3190 (by decide) (by decide)

/-- Claim C2: the percent mapping is clamped into 0..100 for every raw
value (in particular for the whole 12-bit range), and with the compiled-in
calibration dryRaw = 3200, wetRaw = 1400: raw 1400 maps to 100 and raw
3200 maps to 0. -/
theorem moisturePercent_range_and_endpoints :
    (∀ raw : Int, 0 ≤ moisturePercent raw ∧ moisturePercent raw ≤ 100) ∧
    moisturePercent 1400 = 100 ∧ moisturePercent 3200 = 0 := by
  refine ⟨fun raw => ?_, by decide, by decide⟩
  exact clampi_mem _ 0 100 (by norm_num)

/-- Claim C3 (counterexample): with equal calibration constants no
initialization failure happens; the guarded mapper of part_000 is still
reached per sample and returns 0 (here at two sample raw values). -/
theorem equal_calibration_maps_sample_cex :
    moisturePercentFromRawP 1000 1000 777 = 0 ∧
    moisturePercentFromRawP 1000 1000 (-5) = 0 := by
  decide

/-- Claim C3 (amended): there is no startup configuration check.  The
guarded variant tests the denominator on every call and returns 0 whenever
dryRaw = wetRaw, so that variant never divides by zero at runtime; the
compiled-in calibration constants have a nonzero difference, under which
the guarded and unguarded mappers agree on every raw value. -/
theorem equal_calibration_guard_amended :
    (∀ dryRaw wetRaw raw : Int, dryRaw = wetRaw →
       moisturePercentFromRawP dryRaw wetRaw raw = 0) ∧
    DRY_RAW - WET_RAW ≠ 0 ∧
    (∀ raw : Int,
       moisturePercentFromRawP DRY_RAW WET_RAW raw =
         moisturePercentP DRY_RAW WET_RAW raw) := by
  refine ⟨fun dryRaw wetRaw raw h => ?_, by decide, fun raw => ?_⟩
  · simp [moisturePercentFromRawP, h]
  · have hne : DRY_RAW - WET_RAW ≠ 0 := by decide
    simp [moisturePercentFromRawP, moisturePercentP, hne]

/-- Claim C3 witness: the guard conjunct at dryRaw = wetRaw = 1000,
raw = 5. -/
theorem equal_calibration_guard_amended_witness :
    moisturePercentFromRawP 1000 1000 5 = 0 :=
  equal_calibration_guard_amended.1 1000 1000 5 rfl

/-! Status classifier of the five-threshold sketch (second sketch of
part_001).  Its thresholds are 20, 40, 60, 80, 90 and it has six branches,
including a VERY WET band between 80 and 89. -/

/-- THRESH_DRY of the five-threshold sketch. -/
def THRESH_DRY5 : Int := 20

/-- THRESH_SLIGHT of the five-threshold sketch. -/
def THRESH_SLIGHT : Int := 40

/-- THRESH_IDEAL of the five-threshold sketch. -/
def THRESH_IDEAL : Int := 60

/-- THRESH_WET of the five-threshold sketch. -/
def THRESH_WET5 : Int := 80

/-- THRESH_SATURATED of the five-threshold sketch. -/
def THRESH_SATURATED : Int := 90

/-- statusFromPct of the five-threshold sketch: first threshold whose bound
exceeds pct wins, else SATURATED. -/
def statusFromPct5 (pct : Int) : String :=
  if pct < THRESH_DRY5 then "DRY"
  else if pct < THRESH_SLIGHT then "DAMP"
  else if pct < THRESH_IDEAL then "IDEAL"
  else if pct < THRESH_WET5 then "WET"
  else if pct < THRESH_SATURATED then "VERY WET"
  else "SATURATED"

/-- Closed percent ranges and labels of the six bands the classifier
actually implements. -/
def bands5 : List (Int × Int × String) :=
  [(0, 19, "DRY"), (20, 39, "DAMP"), (40, 59, "IDEAL"), (60, 79, "WET"),
   (80, 89, "VERY WET"), (90, 100, "SATURATED")]

/-- Claim C4 (counterexample): percent 85 classifies as VERY WET, a label
outside the five claimed labels DRY, DAMP, IDEAL, WET, SATURATED. -/
theorem statusFromPct5_six_labels_cex :
    statusFromPct5 85 = "VERY WET" ∧
    statusFromPct5 85 ∉
      (["DRY", "DAMP", "IDEAL", "WET", "SATURATED"] : List String) := by
  decide

/-- Claim C4 (amended): the classifier implements six bands with upper
bounds 20, 40, 60, 80, 90 (labels DRY, DAMP, IDEAL, WET, VERY WET,
SATURATED).  For every percent in 0..100 exactly one band range contains
it, the classifier returns that band's label, and in particular 59
classifies as IDEAL while 60 classifies as WET. -/
theorem statusFromPct5_band_partition :
    (∀ pct : Int, 0 ≤ pct → pct ≤ 100 →
       (bands5.filter
           (fun b => decide (b.1 ≤ pct) && decide (pct ≤ b.2.1))).length = 1 ∧
       (∀ b ∈ bands5, b.1 ≤ pct → pct ≤ b.2.1 →
          statusFromPct5 pct = b.2.2)) ∧
    statusFromPct5 59 = "IDEAL" ∧ statusFromPct5 60 = "WET" := by
  refine ⟨fun pct h0 h1 => ?_, by decide, by decide⟩
  interval_cases pct <;> exact ⟨by decide, by decide⟩

/-- Claim C4 witness: the partition statement at percent 59. -/
theorem statusFromPct5_band_partition_witness :
    (bands5.filter
        (fun b => decide (b.1 ≤ (59 : Int)) &&
          decide ((59 : Int) ≤ b.2.1))).length = 1 ∧
    (∀ b ∈ bands5, b.1 ≤ (59 : Int) → (59 : Int) ≤ b.2.1 →
       statusFromPct5 59 = b.2.2) :=
  statusFromPct5_band_partition.1 59 (by decide) (by decide)

/-! Pixel-footprint model of the drawing primitives.  The epd_gui drawing
library the sketches call into is not among the repository sources, so the
write footprints below are modelled from the spec's BitCanvas contract
(section 4.1): filled rectangles write every pixel of the inclusive
rectangle, stroked rectangles their border, circles a disk or a one-pixel
raster ring, lines a rounded DDA raster, and drawString blits one glyph
cell per character starting at the anchor.  The integer pixel-scale
multiplier on stroked primitives only enlarges these sets, so every
membership fact proved below is a pixel the real draw also writes. -/

/-- Modelled from the spec: a FILLED rectangle writes every pixel with
x0 <= px <= x1 and y0 <= py <= y1 (inclusive corners). -/
def rectFullMem (x0 y0 x1 y1 px py : Int) : Bool :=
  decide (x0 ≤ px) && decide (px ≤ x1) && decide (y0 ≤ py) && decide (py ≤ y1)

/-- Modelled from the spec: a STROKE-ONLY rectangle writes the border
pixels of the inclusive rectangle. -/
def rectStrokeMem (x0 y0 x1 y1 px py : Int) : Bool :=
  rectFullMem x0 y0 x1 y1 px py &&
    (decide (px = x0) || decide (px = x1) ||
     decide (py = y0) || decide (py = y1))

/-- Modelled from the spec: a FULL circle writes the pixel disk of radius
r around the center. -/
def circleFullMem (cx cy r px py : Int) : Bool :=
  decide ((px - cx) * (px - cx) + (py - cy) * (py - cy) ≤ r * r)

/-- Modelled from the spec: an EMPTY (stroked) circle writes a one-pixel
raster ring of radius r; modelled as the pixel annulus whose squared
center distance differs from r*r by at most r, which contains the four
cardinal points of the circle in every standard rasterization. -/
def circleStrokeMem (cx cy r px py : Int) : Bool :=
  decide (r * r - r ≤ (px - cx) * (px - cx) + (py - cy) * (py - cy)) &&
    decide ((px - cx) * (px - cx) + (py - cy) * (py - cy) ≤ r * r + r)

/-- Modelled from the spec: drawLine writes the rounded DDA raster of the
segment: with n = max |dx| |dy| steps, pixel i is the segment point at
parameter i/n with each coordinate rounded to nearest. -/
def lineMem (x0 y0 x1 y1 px py : Int) : Bool :=
  let dx := x1 - x0
  let dy := y1 - y0
  let n : Nat := max (x1 - x0).natAbs (y1 - y0).natAbs
  if n = 0 then decide (px = x0) && decide (py = y0)
  else
    (List.range (n + 1)).any fun i =>
      decide (px = x0 + Int.fdiv (2 * (i : Int) * dx + (n : Int))
        (2 * (n : Int))) &&
      decide (py = y0 + Int.fdiv (2 * (i : Int) * dy + (n : Int))
        (2 * (n : Int)))

/-- Modelled from the spec: drawString blits one glyph cell of the font per
character, the first cell anchored at (x, y); the footprint is the string's
cell rectangle of len glyphs of width charW and height fontH (the blit
writes every cell pixel as foreground or background). -/
def strMem (x y len charW fontH px py : Int) : Bool :=
  rectFullMem x y (x + len * charW - 1) (y + fontH - 1) px py

/-- Modelled from the spec: glyph cell width of the injected Font24
(17 by 24 pixel cells; the height matches the font's name). -/
def font24W : Int := 17

/-- Modelled from the spec: glyph cell width of the injected Font16
(11 by 16 pixel cells; the height matches the font's name). -/
def font16W : Int := 11

/-! Canvas and dynamic-region geometry of the five-threshold sketch:
landscape 250 by 122 canvas, header of 28 rows plus a 4 row gap, dynamic
box from row 32 of width (250/8)*8 = 248 and height 90. -/

/-- Physical panel width in pixels (2.13 inch panel). -/
def EPD_WIDTH : Int := 122

/-- Physical panel height in pixels (2.13 inch panel). -/
def EPD_HEIGHT : Int := 250

/-- Landscape canvas width of the five-threshold sketch. -/
def SCREEN_W5 : Int := EPD_HEIGHT

/-- Landscape canvas height of the five-threshold sketch. -/
def SCREEN_H5 : Int := EPD_WIDTH

/-- Header height of the five-threshold sketch. -/
def HEADER_H5 : Int := 28

/-- Dynamic box left edge. -/
def BOX_X5 : Int := 0

/-- Dynamic box top edge: HEADER_H + 4. -/
def BOX_Y5 : Int := HEADER_H5 + 4

/-- Dynamic box width, kept a multiple of 8: (SCREEN_W / 8) * 8. -/
def BOX_W5 : Int := Int.tdiv SCREEN_W5 8 * 8

/-- Dynamic box height: SCREEN_H - BOX_Y. -/
def BOX_H5 : Int := SCREEN_H5 - BOX_Y5

/-- Pixel lies in the dynamic box (outline included). -/
def inBox5 (px py : Int) : Bool :=
  rectFullMem BOX_X5 BOX_Y5 (BOX_X5 + BOX_W5 - 1) (BOX_Y5 + BOX_H5 - 1) px py

/-- Pixel lies on the one-pixel outline of the dynamic box. -/
def onBoxOutline5 (px py : Int) : Bool :=
  inBox5 px py &&
    (decide (px = BOX_X5) || decide (px = BOX_X5 + BOX_W5 - 1) ||
     decide (py = BOX_Y5) || decide (py = BOX_Y5 + BOX_H5 - 1))

/-- Pixel lies strictly inside the dynamic box (outline excluded). -/
def boxInterior5 (px py : Int) : Bool :=
  inBox5 px py && !onBoxOutline5 px py

/-! Components of drawDynamic in the five-threshold sketch. -/

/-- Decimal digit count snprintf produces for pct in 0..999; the same
conditional the sketches use for the percent-symbol offset. -/
def numDigits (pct : Int) : Int :=
  if pct < 10 then 1 else if pct < 100 then 2 else 3

/-- Horizontal anchor of the hand-drawn percent symbol: leftX plus an
offset that grows with the digit count. -/
def xPct5 (pct : Int) : Int :=
  6 + (if pct < 10 then 18 else if pct < 100 then 32 else 46)

/-- drawPercentSymbol: two small filled circles and a diagonal stroke. -/
def drawPercentSymbolMem (x y px py : Int) : Bool :=
  circleFullMem (x + 2) (y + 2) 2 px py ||
  circleFullMem (x + 12) (y + 14) 2 px py ||
  lineMem (x + 12) (y + 2) (x + 2) (y + 14) px py

/-- drawFaceAt of the five-threshold sketch: stroked head circle, two
filled eye dots, then one of five mouths chosen by the thresholds; the
wettest branch adds a filled sweat dot left of the head. -/
def drawFaceAtMem5 (cx cy r pct px py : Int) : Bool :=
  circleStrokeMem cx cy r px py ||
  circleFullMem (cx - Int.tdiv r 3) (cy - Int.tdiv r 4) 3 px py ||
  circleFullMem (cx + Int.tdiv r 3) (cy - Int.tdiv r 4) 3 px py ||
  (if pct < THRESH_DRY5 then
    lineMem (cx - Int.tdiv r 2) (cy + Int.tdiv r 2)
      (cx - Int.tdiv r 4) (cy + Int.tdiv r 3) px py ||
    lineMem (cx - Int.tdiv r 4) (cy + Int.tdiv r 3)
      (cx + Int.tdiv r 4) (cy + Int.tdiv r 3) px py ||
    lineMem (cx + Int.tdiv r 4) (cy + Int.tdiv r 3)
      (cx + Int.tdiv r 2) (cy + Int.tdiv r 2) px py
  else if pct < THRESH_SLIGHT then
    lineMem (cx - Int.tdiv r 2) (cy + Int.tdiv r 3)
      (cx - Int.tdiv r 4) (cy + Int.tdiv r 4) px py ||
    lineMem (cx - Int.tdiv r 4) (cy + Int.tdiv r 4)
      (cx + Int.tdiv r 4) (cy + Int.tdiv r 4) px py ||
    lineMem (cx + Int.tdiv r 4) (cy + Int.tdiv r 4)
      (cx + Int.tdiv r 2) (cy + Int.tdiv r 3) px py
  else if pct < THRESH_IDEAL then
    lineMem (cx - Int.tdiv r 2) (cy + Int.tdiv r 4)
      (cx - Int.tdiv r 4) (cy + Int.tdiv r 3) px py ||
    lineMem (cx - Int.tdiv r 4) (cy + Int.tdiv r 3)
      (cx + Int.tdiv r 4) (cy + Int.tdiv r 3) px py ||
    lineMem (cx + Int.tdiv r 4) (cy + Int.tdiv r 3)
      (cx + Int.tdiv r 2) (cy + Int.tdiv r 4) px py
  else if pct < THRESH_WET5 then
    lineMem (cx - Int.tdiv r 2) (cy + Int.tdiv r 6)
      (cx - Int.tdiv r 4) (cy + Int.tdiv r 3) px py ||
    lineMem (cx - Int.tdiv r 4) (cy + Int.tdiv r 3)
      (cx + Int.tdiv r 4) (cy + Int.tdiv r 3) px py ||
    lineMem (cx + Int.tdiv r 4) (cy + Int.tdiv r 3)
      (cx + Int.tdiv r 2) (cy + Int.tdiv r 6) px py
  else
    lineMem (cx - Int.tdiv r 2 + 4) (cy + Int.tdiv r 3)
      (cx + Int.tdiv r 2 - 4) (cy + Int.tdiv r 3) px py ||
    circleFullMem (cx - r + 2) (cy - Int.tdiv r 3) 2 px py)

/-- Progress bar left edge (leftX). -/
def barX5 : Int := 6

/-- Progress bar top edge: BOX_Y + 40. -/
def barY5 : Int := BOX_Y5 + 40

/-- Progress bar outline width. -/
def barW5 : Int := 100

/-- Progress bar outline height. -/
def barH5 : Int := 15

/-- Bar fill area left edge: ix0 = x0 + 1. -/
def barIx0 : Int := barX5 + 1

/-- Bar fill area right edge: ix1 = x1 - 1. -/
def barIx1 : Int := barX5 + barW5 - 1

/-- Bar fill area top edge: iy0 = y0 (the code keeps the outline rows). -/
def barIy0 : Int := barY5

/-- Bar fill area bottom edge: iy1 = y1. -/
def barIy1 : Int := barY5 + barH5

/-- Inner width of the bar: ix1 - ix0 + 1 = 99. -/
def innerW5 : Int := barIx1 - barIx0 + 1

/-- Guarded fill width: fillPx = (innerW * pct) / 100, C truncation. -/
def fillPx5 (pct : Int) : Int := Int.tdiv (innerW5 * pct) 100

/-- Guarded bar fill of the five-threshold sketch: a filled rectangle of
exactly fillPx columns from ix0, drawn only when fillPx > 0. -/
def barFillMem5 (pct px py : Int) : Bool :=
  if fillPx5 pct > 0 then
    rectFullMem barIx0 barIy0 (barIx0 + fillPx5 pct - 1) barIy1 px py
  else false

/-- Whole progress bar of the five-threshold sketch: stroked outline plus
the guarded fill. -/
def barMem5 (pct px py : Int) : Bool :=
  rectStrokeMem barX5 barY5 (barX5 + barW5) (barY5 + barH5) px py ||
  barFillMem5 pct px py

/-- Configured face radius of the five-threshold sketch. -/
def faceR5 : Int := 45

/-- Configured face x offset. -/
def faceDx5 : Int := 5

/-- Configured face y offset. -/
def faceDy5 : Int := 20

/-- Face center x after the safety clamp with pad 2: base position
BOX_X + (BOX_W * 3) / 4 + faceDx clamped into the pad plus radius range. -/
def faceCx5 : Int :=
  clampi (BOX_X5 + Int.tdiv (BOX_W5 * 3) 4 + faceDx5)
    (BOX_X5 + 2 + faceR5) (BOX_X5 + BOX_W5 - 2 - faceR5)

/-- Face center y after the safety clamp with pad 2: base position
BOX_Y + BOX_H / 2 + faceDy clamped into the pad plus radius range (the
bounds invert for this radius: lo = 79 exceeds hi = 75). -/
def faceCy5 : Int :=
  clampi (BOX_Y5 + Int.tdiv BOX_H5 2 + faceDy5)
    (BOX_Y5 + 2 + faceR5) (BOX_Y5 + BOX_H5 - 2 - faceR5)

/-- Interior clear of drawDynamic: a filled rectangle one pixel inside the
box on every side. -/
def clearBoxMem5 (px py : Int) : Bool :=
  rectFullMem (BOX_X5 + 1) (BOX_Y5 + 1)
    (BOX_X5 + BOX_W5 - 2) (BOX_Y5 + BOX_H5 - 2) px py

/-- Write footprint of one drawDynamic call of the five-threshold sketch:
interior clear, Moisture label at (leftX, BOX_Y - 20), percent digits at
(leftX, BOX_Y + 4), hand-drawn percent symbol, status label at
(leftX, BOX_Y + 72), progress bar, and the clamped face. -/
def drawDynamicMem5 (pct px py : Int) : Bool :=
  clearBoxMem5 px py ||
  strMem 6 (BOX_Y5 - 20) 8 font24W 24 px py ||
  strMem 6 (BOX_Y5 + 4) (numDigits pct) font24W 24 px py ||
  drawPercentSymbolMem (xPct5 pct + 20) (BOX_Y5 + 5) px py ||
  strMem 6 (BOX_Y5 + 72) ((statusFromPct5 pct).length : Int) font16W 16 px py ||
  barMem5 pct px py ||
  drawFaceAtMem5 faceCx5 faceCy5 faceR5 pct px py

/-! Progress bar of plantmonitor.ino (the unguarded main-variant shape,
shared by part_000 and part_002 with other widths). -/

/-- Dynamic box left edge in plantmonitor.ino. -/
def BOX_XIno : Int := 0

/-- Dynamic box top edge in plantmonitor.ino. -/
def BOX_YIno : Int := 32

/-- Dynamic box width in plantmonitor.ino. -/
def BOX_WIno : Int := 120

/-- Dynamic box height in plantmonitor.ino. -/
def BOX_HIno : Int := 210

/-- Bar left edge in plantmonitor.ino (leftX). -/
def barXIno : Int := 6

/-- Bar top edge in plantmonitor.ino: BOX_Y + BOX_H - 20. -/
def barYIno : Int := BOX_YIno + BOX_HIno - 20

/-- Bar outline width in plantmonitor.ino. -/
def barWIno : Int := 56

/-- Bar outline height in plantmonitor.ino. -/
def barHIno : Int := 8

/-- Main-variant fill width: fillW = (barW - 2) * pct / 100, C
truncation; every unguarded sketch computes this with its own barW. -/
def mainFillW (barW pct : Int) : Int :=
  Int.tdiv ((barW - 2) * pct) 100

/-- fillW of plantmonitor.ino. -/
def fillWIno (pct : Int) : Int := mainFillW barWIno pct

/-- Unguarded bar fill of plantmonitor.ino: a filled rectangle with
inclusive corners from barX + 1 to barX + 1 + fillW, drawn
unconditionally. -/
def barFillMemIno (pct px py : Int) : Bool :=
  rectFullMem (barXIno + 1) (barYIno + 1)
    (barXIno + 1 + fillWIno pct) (barYIno + barHIno - 1) px py

/-- Interior width of the outlined plantmonitor.ino bar: the columns
strictly between the outline columns barX and barX + barW. -/
def innerWIno : Int := (barXIno + barWIno - 1) - (barXIno + 1) + 1

/-- Membership in the box interior unfolds to the concrete pixel range
1..246 by 33..120. -/
theorem boxInterior5_iff (px py : Int) :
    boxInterior5 px py = true ↔
      (1 ≤ px ∧ px ≤ 246 ∧ 33 ≤ py ∧ py ≤ 120) := by
  have hw : BOX_W5 = 248 := by decide
  have hh : BOX_H5 = 90 := by decide
  have hy : BOX_Y5 = 32 := by decide
  have hx : BOX_X5 = 0 := by decide
  simp [boxInterior5, inBox5, onBoxOutline5, rectFullMem, hw, hh, hy, hx]
  omega

/-- The guarded bar fill unfolds to an interval of fillPx columns over the
bar rows, present only when fillPx is positive. -/
theorem barFillMem5_iff (pct px py : Int) :
    barFillMem5 pct px py = true ↔
      (0 < fillPx5 pct ∧ barIx0 ≤ px ∧ px ≤ barIx0 + fillPx5 pct - 1 ∧
       barIy0 ≤ py ∧ py ≤ barIy1) := by
  unfold barFillMem5 rectFullMem
  split_ifs with h
  · simp only [Bool.and_eq_true, decide_eq_true_eq]
    omega
  · simp only [Bool.false_eq_true, false_iff]
    omega

/-- For percent at most 100 the guarded fill width stays at most 99. -/
theorem fillPx5_le (pct : Int) (h0 : 0 ≤ pct) (h1 : pct ≤ 100) :
    fillPx5 pct ≤ 99 := by
  have hi : innerW5 = 99 := by decide
  unfold fillPx5
  rw [hi, @Int.tdiv_eq_ediv (99 * pct) 100 (by omega) (by norm_num)]
  omega

/-- Claim C5 (counterexample): the dynamic draw of the five-threshold
sketch writes the Moisture label anchored at (6, BOX_Y - 20) = (6, 12),
a pixel in the header above the dynamic region, so pixels outside the
region are touched. -/
theorem drawDynamic_writes_header_cex :
    drawDynamicMem5 50 6 12 = true ∧ inBox5 6 12 = false := by
  decide

/-- Claim C5 (amended): the dynamic draw is not confined to the region
interior: its Moisture label is anchored 20 pixels above the region top,
in the header (shown here at percent 85 and pixel (6, 12)).  The
interior-clearing step touches exactly the interior, and the progress bar
stays strictly inside for every percent in 0..100. -/
theorem drawDynamic_confinement_amended :
    (∀ px py : Int, clearBoxMem5 px py = true ↔ boxInterior5 px py = true) ∧
    (∀ pct px py : Int, 0 ≤ pct → pct ≤ 100 →
       barMem5 pct px py = true → boxInterior5 px py = true) ∧
    drawDynamicMem5 85 6 12 = true ∧ inBox5 6 12 = false := by
  refine ⟨fun px py => ?_, fun pct px py h0 h1 hm => ?_, by decide, by decide⟩
  · rw [boxInterior5_iff]
    have hw : BOX_W5 = 248 := by decide
    have hh : BOX_H5 = 90 := by decide
    have hy : BOX_Y5 = 32 := by decide
    have hx : BOX_X5 = 0 := by decide
    simp only [clearBoxMem5, rectFullMem, hw, hh, hy, hx,
      Bool.and_eq_true, decide_eq_true_eq]
    omega
  · rw [boxInterior5_iff]
    simp only [barMem5, Bool.or_eq_true] at hm
    rcases hm with hs | hf
    · revert hs
      simp only [rectStrokeMem, rectFullMem, barX5, barY5, barW5, barH5,
        BOX_Y5, HEADER_H5, Bool.and_eq_true, Bool.or_eq_true,
        decide_eq_true_eq]
      omega
    · have h := (barFillMem5_iff pct px py).mp hf
      have hb : fillPx5 pct ≤ 99 := fillPx5_le pct h0 h1
      have hx0 : barIx0 = 7 := by decide
      have hy0 : barIy0 = 72 := by decide
      have hy1 : barIy1 = 87 := by decide
      rw [hx0, hy0, hy1] at h
      omega

/-- Claim C5 witness: the bar-confinement conjunct at percent 50 and
pixel (10, 75), a pixel of the bar outline. -/
theorem drawDynamic_confinement_amended_witness :
    boxInterior5 10 75 = true :=
  drawDynamic_confinement_amended.2.1 50 10 75 (by decide) (by decide)
    (by decide)

/-- Claim C6 (counterexample): in plantmonitor.ino at percent 50 the
claimed fill width is floor(55 * 50 / 100) = 27 columns, yet both the
first interior column barX + 1 and the 28th column barX + 28 are filled:
the unguarded fill spans fillW + 1 = 28 columns, one more than claimed. -/
theorem bar_fill_width_cex :
    Int.tdiv (innerWIno * 50) 100 = 27 ∧
    barFillMemIno 50 (barXIno + 1) (barYIno + 1) = true ∧
    barFillMemIno 50 (barXIno + 28) (barYIno + 1) = true := by
  decide

/-- Claim C6 (amended): only the guarded five-threshold sketch fills
exactly floor(innerWidth * pct / 100) columns (its inner width is 99, so
percent 50 fills 49 columns); the unguarded plantmonitor.ino fill spans
the columns barX + 1 .. barX + 1 + fillW, that is fillW + 1 columns. -/
theorem bar_fill_width_amended :
    (∀ pct px : Int,
       (barFillMem5 pct px barIy0 = true ↔
         (barIx0 ≤ px ∧ px < barIx0 + Int.tdiv (innerW5 * pct) 100))) ∧
    Int.tdiv (innerW5 * 50) 100 = 49 ∧
    (∀ pct px : Int,
       (barFillMemIno pct px (barYIno + 1) = true ↔
         (barXIno + 1 ≤ px ∧ px ≤ barXIno + 1 + fillWIno pct))) := by
  refine ⟨fun pct px => ?_, by decide, fun pct px => ?_⟩
  · rw [barFillMem5_iff]
    have hx0 : barIx0 = 7 := by decide
    have hy0 : barIy0 = 72 := by decide
    have hy1 : barIy1 = 87 := by decide
    show _ ↔ (barIx0 ≤ px ∧ px < barIx0 + fillPx5 pct)
    rw [hx0, hy0, hy1]
    generalize fillPx5 pct = q
    omega
  · simp only [barFillMemIno, rectFullMem, Bool.and_eq_true,
      decide_eq_true_eq]
    have hy : barYIno = 222 := by decide
    have hh : barHIno = 8 := by decide
    have hx : barXIno = 6 := by decide
    rw [hy, hh, hx]
    generalize fillWIno pct = q
    omega

/-- Claim C7 (counterexample): in the five-threshold sketch the clamped
face center is (191, 75) with the configured radius 45 unchanged; the
head outline's topmost pixel (191, 30) lies above the dynamic region, so
the drawn face is not contained in the region interior. -/
theorem face_outside_region_cex :
    faceCx5 = 191 ∧ faceCy5 = 75 ∧
    drawFaceAtMem5 faceCx5 faceCy5 faceR5 50 191 30 = true ∧
    inBox5 191 30 = false := by
  decide

/-- Claim C7 (amended): only the face center is clamped (with pad 2); the
radius is never reduced.  Horizontally the clamped face fits inside the
region with its pad, but vertically the clamp bounds invert for radius 45
in a 90 row region (lower bound 79 exceeds upper bound 75), and the drawn
head extends above the region top (cy - r = 30 against top edge 32) while
its bottom stays inside. -/
theorem face_clamp_amended :
    (BOX_X5 + 2 ≤ faceCx5 - faceR5 ∧
     faceCx5 + faceR5 ≤ BOX_X5 + BOX_W5 - 2) ∧
    BOX_Y5 + BOX_H5 - 2 - faceR5 < BOX_Y5 + 2 + faceR5 ∧
    faceCy5 - faceR5 < BOX_Y5 ∧
    faceCy5 + faceR5 ≤ BOX_Y5 + BOX_H5 - 1 := by
  decide

/-- Claim C10: at percent 0 every main-variant fill width is 0, yet the
unguarded fill rectangle of plantmonitor.ino still covers exactly the one
column barX + 1 over the bar interior rows, while the guarded
five-threshold fill draws nothing at all. -/
theorem bar_zero_percent_fill :
    (∀ barW : Int, mainFillW barW 0 = 0) ∧
    (∀ px py : Int,
       (barFillMemIno 0 px py = true ↔
         (px = barXIno + 1 ∧ barYIno + 1 ≤ py ∧
          py ≤ barYIno + barHIno - 1))) ∧
    (∀ px py : Int, barFillMem5 0 px py = false) := by
  refine ⟨fun barW => ?_, fun px py => ?_, fun px py => ?_⟩
  · simp [mainFillW]
  · have h0 : fillWIno 0 = 0 := by decide
    simp only [barFillMemIno, h0, rectFullMem, barXIno, barYIno,
      barHIno, BOX_YIno, BOX_HIno, Bool.and_eq_true, decide_eq_true_eq]
    omega
  · have h0 : fillPx5 0 = 0 := by decide
    simp [barFillMem5, h0]

/-! Region extraction.  copyBoxFromBWimage copies, for each region row,
the region.w / 8 bytes starting at byte offset region.x / 8 of that canvas
row into the next row of a compact buffer.  The canvas is modelled as a
function from flat byte index to byte value, exactly the pointer
arithmetic BWimage + row * SCR_ROW_BYTES + byteX of the sketch. -/

/-- copyBoxFromBWimage generalized over the canvas, row stride and region:
element i of the buffer (row-major, w / 8 bytes per row) is the canvas
byte at flat index (y + i / (w/8)) * rowBytes + x / 8 + i % (w/8). -/
def extractRegion (canvas : Nat → Nat) (rowBytes x y w h : Nat) : List Nat :=
  (List.range ((w / 8) * h)).map
    (fun i => canvas ((y + i / (w / 8)) * rowBytes + x / 8 + i % (w / 8)))

/-- Modelled from the spec: the round-trip property's write-back step, not
present in the sources, writes the extracted buffer into a freshly zeroed
canvas at the same coordinates: a byte whose flat index decodes to a row
and byte column inside the region comes from the buffer, every other byte
is 0. -/
def writeBackRegion (buf : List Nat) (rowBytes x y w h j : Nat) : Nat :=
  let row := j / rowBytes
  let col := j % rowBytes
  if y ≤ row ∧ row < y + h ∧ x / 8 ≤ col ∧ col < x / 8 + w / 8 then
    buf.getD ((row - y) * (w / 8) + (col - x / 8)) 0
  else 0

/-- Element access for a mapped range list. -/
theorem rangeMap_getD (f : Nat → Nat) (n i : Nat) (h : i < n) :
    ((List.range n).map f).getD i 0 = f i := by
  have hl : i < ((List.range n).map f).length := by simpa using h
  rw [List.getD_eq_getElem _ _ hl, List.getElem_map, List.getElem_range]

/-- Claim C8: for a region satisfying the Region invariants (x and w
multiples of 8, region inside the canvas rows), the extracted buffer has
size (w / 8) * h, and writing it back at the same coordinates into a
zeroed canvas reproduces every original region byte: at each in-region
flat index row * rowBytes + col the rebuilt canvas equals the source. -/
theorem extract_writeback_roundtrip (canvas : Nat → Nat)
    (rowBytes x y w h row col : Nat)
    (_hx : x % 8 = 0) (hw : w % 8 = 0) (hw0 : 0 < w)
    (hfit : x / 8 + w / 8 ≤ rowBytes)
    (hr0 : y ≤ row) (hr1 : row < y + h)
    (hc0 : x / 8 ≤ col) (hc1 : col < x / 8 + w / 8) :
    (extractRegion canvas rowBytes x y w h).length = (w / 8) * h ∧
    writeBackRegion (extractRegion canvas rowBytes x y w h)
        rowBytes x y w h (row * rowBytes + col) =
      canvas (row * rowBytes + col) := by
  constructor
  · simp [extractRegion]
  · have hw8 : 0 < w / 8 := by omega
    have hcol : col < rowBytes := by omega
    have hdivj : (row * rowBytes + col) / rowBytes = row := by
      rw [Nat.mul_comm row rowBytes, Nat.mul_add_div (by omega),
        Nat.div_eq_of_lt hcol]
      omega
    have hmodj : (row * rowBytes + col) % rowBytes = col := by
      rw [Nat.mul_comm row rowBytes, Nat.mul_add_mod, Nat.mod_eq_of_lt hcol]
    have hR : row - y < h := by omega
    have hC : col - x / 8 < w / 8 := by omega
    have hidx : (row - y) * (w / 8) + (col - x / 8) < (w / 8) * h := by
      calc (row - y) * (w / 8) + (col - x / 8)
          < (row - y) * (w / 8) + (w / 8) := by omega
        _ = ((row - y) + 1) * (w / 8) := by ring
        _ ≤ h * (w / 8) := Nat.mul_le_mul_right _ (by omega)
        _ = (w / 8) * h := Nat.mul_comm _ _
    have hdivi : ((row - y) * (w / 8) + (col - x / 8)) / (w / 8) = row - y := by
      rw [Nat.mul_comm (row - y) (w / 8), Nat.mul_add_div hw8,
        Nat.div_eq_of_lt hC]
      omega
    have hmodi : ((row - y) * (w / 8) + (col - x / 8)) % (w / 8) =
        col - x / 8 := by
      rw [Nat.mul_comm (row - y) (w / 8), Nat.mul_add_mod,
        Nat.mod_eq_of_lt hC]
    unfold writeBackRegion
    simp only [hdivj, hmodj]
    rw [if_pos ⟨hr0, hr1, hc0, hc1⟩]
    unfold extractRegion
    rw [rangeMap_getD _ _ _ hidx, hdivi, hmodi]
    have harg : (y + (row - y)) * rowBytes + x / 8 + (col - x / 8) =
        row * rowBytes + col := by
      have hyy : y + (row - y) = row := by omega
      rw [hyy, Nat.add_assoc]
      have hcc : x / 8 + (col - x / 8) = col := by omega
      rw [hcc]
    rw [harg]

/-- Claim C8 witness: the round trip at a concrete two-byte-per-row canvas
with an aligned one-row, one-byte region at x = 8, y = 0. -/
theorem extract_writeback_roundtrip_witness :
    (extractRegion (fun j => j + 7) 2 8 0 8 1).length = (8 / 8) * 1 ∧
    writeBackRegion (extractRegion (fun j => j + 7) 2 8 0 8 1)
        2 8 0 8 1 (0 * 2 + 1) =
      (fun j => j + 7) (0 * 2 + 1) :=
  extract_writeback_roundtrip (fun j => j + 7) 2 8 0 8 1 0 1
    (by decide) (by decide) (by decide) (by decide)
    (by decide) (by decide) (by decide) (by decide)

/-! Debounce of the polling loop.  loop keeps a lastUpdate tick, reads
now = millis(), returns early when the unsigned 32-bit difference
(uint32_t)(now - lastUpdate) is below UPDATE_MS, and otherwise stores now
and performs a refresh. -/

/-- Number of values of a uint32_t tick counter. -/
def U32 : Nat := 4294967296

/-- UPDATE_MS of the sketches: 30 minutes in milliseconds. -/
def UPDATE_MS : Nat := 30 * 60 * 1000

/-- Unsigned 32-bit wraparound difference (uint32_t)(now - last) for tick
values below 2^32. -/
def u32elapsed (now last : Nat) : Nat := (now + U32 - last) % U32

/-- One activation of loop: given the stored lastUpdate tick and the
current millis tick, return the new stored tick and whether a physical
refresh is performed this activation. -/
def loopStep (last now : Nat) : Nat × Bool :=
  if u32elapsed now last < UPDATE_MS then (last, false) else (now, true)

/-- Claim C9: two activations at ticks for real times t and t + dt with
dt below the update interval perform at most one refresh between them
(never both), and the unsigned wraparound difference recovers the true
elapsed time dt even when the tick counter wraps between them. -/
theorem loop_debounce_at_most_one_refresh :
    (∀ last t dt : Nat, last < U32 → t < U32 → dt < UPDATE_MS →
       ¬((loopStep last t).2 = true ∧
         (loopStep (loopStep last t).1 ((t + dt) % U32)).2 = true)) ∧
    (∀ t dt : Nat, t < U32 → dt < U32 →
       u32elapsed ((t + dt) % U32) t = dt) := by
  constructor
  · rintro last t dt hl ht hdt ⟨h1, h2⟩
    by_cases hc : u32elapsed t last < UPDATE_MS
    · simp [loopStep, hc] at h1
    · have hs : loopStep last t = (t, true) := by
        simp [loopStep, hc]
      rw [hs] at h2
      have he : u32elapsed ((t + dt) % U32) t = dt := by
        have hU : U32 = 4294967296 := rfl
        have hu : UPDATE_MS = 1800000 := rfl
        unfold u32elapsed
        rw [hU] at ht ⊢
        rw [hu] at hdt
        omega
      simp [loopStep, he, hdt] at h2
  · intro t dt ht hdt
    have hU : U32 = 4294967296 := rfl
    rw [hU] at ht hdt
    unfold u32elapsed
    rw [hU]
    omega

/-- Claim C9 witness: with lastUpdate 0, a first activation at tick
1800000 refreshes, and a second activation 10 milliseconds later does
not. -/
theorem loop_debounce_at_most_one_refresh_witness :
    ¬((loopStep 0 1800000).2 = true ∧
      (loopStep (loopStep 0 1800000).1 ((1800000 + 10) % U32)).2 = true) :=
  loop_debounce_at_most_one_refresh.1 0 1800000 10
    (by decide) (by decide) (by decide)

end PlantMonitor
